import Mathlib

/-!
Shallow embedding of `lumin/nn/models/model_builder.py` (class `ModelBuilder`).

Python values that flow through the configuration dictionaries are modelled by
the inductive `Val` (strings, numbers as rationals, booleans).  Python `dict`s
are modelled by association lists whose lookup returns the value of the last
binding for a key, matching the overwrite semantics of `dict` insertion and of
the comprehensions `{k.lower(): d[k] for k in d}` used by the parsers.

The collaborators imported from modules outside this fragment
(`FullyConnected`, `lookup_act`, `lookup_init`) are treated as the spec's
external collaborators: the activation lookup is recorded as an opaque
activation layer keyed by name, the weight initialisation mutates tensor
values only (it never changes the layer sequence, so it has no structural
effect here), and the body builder is a parameter that is handed the recorded
call and reports an output width.
-/

set_option autoImplicit false

namespace Lumin

/-- A Python value carried by a configuration mapping: a string, a number
(modelled as a rational) or a boolean. -/
inductive Val where
  | str (s : String)
  | num (q : ℚ)
  | bool (b : Bool)
deriving DecidableEq, Repr

/-- A Python `dict` from strings to values, modelled as an association list;
lookups take the last binding for a key, matching `dict` overwrite
semantics. -/
abbrev Dict := List (String × Val)

/-- Lookup in a `Dict`: the value of the last binding of the key, as in a
Python `dict` built by successive insertions. -/
def dictGet : Dict → String → Option Val
  | [], _ => none
  | kv :: d, k =>
      match dictGet d k with
      | some v => some v
      | none => if kv.1 = k then some kv.2 else none

/-- Membership test, Python's `k in d`. -/
def dictContains (d : Dict) (k : String) : Bool :=
  d.any (fun kv => kv.1 == k)

/-- Python's `d[k] = v`: overwrite the bindings of `k` if present, else append
a new binding. -/
def dictSet (d : Dict) (k : String) (v : Val) : Dict :=
  if dictContains d k then d.map (fun kv => if kv.1 = k then (k, v) else kv)
  else d ++ [(k, v)]

/-- Python's `str.lower()` (the configuration strings are ASCII, where
`Char.toLower` agrees with Python). -/
def strLower (s : String) : String :=
  ⟨s.data.map Char.toLower⟩

/-- The comprehension `{k.lower(): d[k] for k in d}` used by
`parse_model_args` and `parse_opt_args`: lower-case every key.  Under
last-binding lookup this has exactly the Python overwrite semantics. -/
def lowerKeys (d : Dict) : Dict :=
  d.map (fun kv => (strLower kv.1, kv.2))

/-- Python's `str.lower()` applied to a `Val`; the source only ever calls it
on strings (`model_args['act'].lower()`). -/
def Val.lower : Val → Val
  | .str s => .str (strLower s)
  | v => v

/-- Python truthiness of a `Val`, for `if self.do:` and `if self.bn:`. -/
def Val.truthy : Val → Bool
  | .str s => s ≠ ""
  | .num q => q ≠ 0
  | .bool b => b

/-- Python numeric subtraction on `Val`s (`self.depth - 1`); a `bool` operand
is an `int` 0/1 in Python.  A string operand would raise `TypeError` in the
source and is left untouched here. -/
def Val.sub : Val → Val → Val
  | .num a, .num b => .num (a - b)
  | .bool a, .num b => .num ((if a then 1 else 0) - b)
  | v, _ => v

/-- Predicate `leadsWith p l` holds when the characters `p` are an initial segment of
`l`. -/
def leadsWith : List Char → List Char → Bool
  | [], _ => true
  | _ :: _, [] => false
  | p :: ps, c :: cs => p = c && leadsWith ps cs

/-- Predicate `subOf pat l`: the characters `pat` appear contiguously somewhere in
`l`. -/
def subOf (pat : List Char) : List Char → Bool
  | [] => leadsWith pat []
  | c :: cs => leadsWith pat (c :: cs) || subOf pat cs

/-- Python's `pat in s` substring containment on strings. -/
def strContains (s pat : String) : Bool :=
  subOf pat.data s.data

/-- A resolved loss: one of the three framework loss classes the builder can
pick (`nn.NLLLoss`, `nn.BCELoss`, `nn.MSELoss`) or a caller-supplied loss
object. -/
inductive LossVal where
  | NLLLoss
  | BCELoss
  | MSELoss
  | custom (v : Val)
deriving DecidableEq, Repr

/-- The `loss` argument of the constructor: the `'auto'` sentinel or an
explicit loss object. -/
inductive LossArg where
  | auto
  | explicitLoss (l : LossVal)
deriving DecidableEq, Repr

/-- Source `ModelBuilder.parse_loss`: an explicit loss wins; otherwise the loss is
derived from the (already lower-cased) objective and `n_out`. -/
def parse_loss (objective : String) (n_out : ℕ) (loss : LossArg) : LossVal :=
  match loss with
  | .auto =>
      if strContains objective "class" then
        if 1 < n_out ∧ strContains objective "multi" = true then .NLLLoss else .BCELoss
      else .MSELoss
  | .explicitLoss l => l

/-- The architecture hyperparameters resolved by `parse_model_args`. -/
structure ModelArgs where
  width : Val
  depth : Val
  do_ : Val
  bn : Val
  act : Val
  res : Val
  dense : Val
deriving DecidableEq, Repr

/-- Source `ModelBuilder.parse_model_args`: lower-case the keys, then read each
recognised key with its documented default; the `act` value is lower-cased. -/
def parse_model_args (model_args : Dict) : ModelArgs :=
  let ma := lowerKeys model_args
  { width := match dictGet ma "width" with | none => .num 100 | some v => v
    depth := match dictGet ma "depth" with | none => .num 4 | some v => v
    do_ := match dictGet ma "do" with | none => .num 0 | some v => v
    bn := match dictGet ma "bn" with | none => .bool false | some v => v
    act := match dictGet ma "act" with | none => .str "relu" | some v => v.lower
    res := match dictGet ma "res" with | none => .bool false | some v => v
    dense := match dictGet ma "dense" with | none => .bool false | some v => v }

/-- The optimiser kind `parse_opt_args` resolves before validating it:
`'adam'` when the (lower-cased) keys lack `opt`, else the stored value. -/
def optResolve (opt_args : Dict) : Val :=
  match dictGet (lowerKeys opt_args) "opt" with
  | none => .str "adam"
  | some v => v

/-- Source `ModelBuilder.parse_opt_args`: lower-case the keys, resolve the optimiser
kind, raise `ValueError` unless it is exactly `'adam'` or `'sgd'`, and keep
every other binding as optimiser hyperparameters. -/
def parse_opt_args (opt_args : Dict) : Except String (Val × Dict) :=
  let opt := optResolve opt_args
  if opt = .str "adam" ∨ opt = .str "sgd" then
    .ok (opt, (lowerKeys opt_args).filter (fun kv => kv.1 != "opt"))
  else
    .error "Optimiser not currently available"

/-- The state of a constructed `ModelBuilder`: the lower-cased objective, the
dimensions, the resolved loss and the fields set by the three parsers. -/
structure ModelBuilder where
  objective : String
  n_in : ℕ
  n_out : ℕ
  loss : LossVal
  width : Val
  depth : Val
  do_ : Val
  bn : Val
  act : Val
  res : Val
  dense : Val
  opt : Val
  opt_args : Dict
deriving DecidableEq, Repr

instance {ε α : Type} [DecidableEq ε] [DecidableEq α] : DecidableEq (Except ε α)
  | .error a, .error b =>
      if h : a = b then isTrue (by rw [h]) else isFalse (fun hh => h (by cases hh; rfl))
  | .error _, .ok _ => isFalse (by intro h; cases h)
  | .ok _, .error _ => isFalse (by intro h; cases h)
  | .ok a, .ok b =>
      if h : a = b then isTrue (by rw [h]) else isFalse (fun hh => h (by cases hh; rfl))

/-- Source `ModelBuilder.__init__`: lower-case the objective, then run `parse_loss`,
`parse_model_args` and `parse_opt_args`; the `ValueError` of the last is the
only failure, surfaced as `Except.error`. -/
def construct (objective : String) (n_in n_out : ℕ) (model_args opt_args : Dict)
    (loss : LossArg) : Except String ModelBuilder :=
  let obj := strLower objective
  let l := parse_loss obj n_out loss
  let ma := parse_model_args model_args
  match parse_opt_args opt_args with
  | .error e => .error e
  | .ok (opt, oargs) =>
      .ok { objective := obj, n_in := n_in, n_out := n_out, loss := l,
            width := ma.width, depth := ma.depth, do_ := ma.do_, bn := ma.bn,
            act := ma.act, res := ma.res, dense := ma.dense,
            opt := opt, opt_args := oargs }

/-- A stage of a dense block, as appended by `get_dense`: the linear layer,
the module returned by the activation lookup for a given activation value
(`lookup_act` is an external collaborator; we record the name it is keyed
by), `nn.BatchNorm1d`, `nn.AlphaDropout` or `nn.Dropout`. -/
inductive Layer where
  | Linear (fan_in fan_out : Val)
  | Activation (act : Val)
  | BatchNorm1d (fan_out : Val)
  | AlphaDropout (p : Val)
  | Dropout (p : Val)
deriving DecidableEq, Repr

/-- Source `ModelBuilder.get_dense`: optional arguments default to the stored width
and activation; a linear layer, then the looked-up activation unless the
activation is `'linear'`, then (unless this is the last layer) the optional
batch-norm and dropout stages, with `nn.AlphaDropout` exactly when the
activation is `'selu'`.  The call to `lookup_init` initialises the linear
layer's weight tensor in place; it does not alter the layer sequence, so it
has no counterpart in this structural embedding. -/
def get_dense (mb : ModelBuilder) (fan_in fan_out act : Option Val) (last_layer : Bool) :
    List Layer :=
  let fan_in := fan_in.getD mb.width
  let fan_out := fan_out.getD mb.width
  let act := act.getD mb.act
  let layers : List Layer := [.Linear fan_in fan_out]
  let layers := if act ≠ .str "linear" then layers ++ [.Activation act] else layers
  let layers := if mb.bn.truthy = true ∧ last_layer = false then
      layers ++ [.BatchNorm1d fan_out] else layers
  let layers := if mb.do_.truthy = true ∧ last_layer = false then
      (if act = .str "selu" then layers ++ [.AlphaDropout mb.do_]
       else layers ++ [.Dropout mb.do_])
    else layers
  layers

/-- Source `ModelBuilder.get_head`: a dense block from `n_in` with all remaining
arguments defaulted. -/
def get_head (mb : ModelBuilder) : List Layer :=
  get_dense mb (some (.num mb.n_in)) none none false

/-- The argument tuple `ModelBuilder.get_body` passes to the injected body
builder (`self.body(depth, self.width, self.do, self.bn, self.act, self.res,
self.dense)`). -/
structure BodyCall where
  depth : Val
  width : Val
  do_ : Val
  bn : Val
  act : Val
  res : Val
  dense : Val
deriving DecidableEq, Repr

/-- Source `ModelBuilder.get_body`: record the call made to the external body
builder. -/
def get_body (mb : ModelBuilder) (depth : Val) : BodyCall :=
  { depth := depth, width := mb.width, do_ := mb.do_, bn := mb.bn,
    act := mb.act, res := mb.res, dense := mb.dense }

/-- Source `ModelBuilder.get_tail`: output-layer dense block whose activation is
chosen by substring containment on the lower-cased objective. -/
def get_tail (mb : ModelBuilder) (n_in : Val) : List Layer :=
  if strContains mb.objective "class" then
    if strContains mb.objective "multi" then
      get_dense mb (some n_in) (some (.num mb.n_out)) (some (.str "logsoftmax")) true
    else
      get_dense mb (some n_in) (some (.num mb.n_out)) (some (.str "sigmoid")) true
  else
    get_dense mb (some n_in) (some (.num mb.n_out)) (some (.str "linear")) true

/-- A module assembled by `build_model`: a dense block, the module returned
by the external body builder (recorded as the call made to it together with
the output width it reports), or an `nn.Sequential` composition. -/
inductive Module where
  | dense (layers : List Layer)
  | body (call : BodyCall) (out_size : ℕ)
  | sequential (ms : List Module)
deriving Repr

/-- Modelled from the spec: the body builder (`FullyConnected`, defined
outside this fragment) is an external collaborator with contract
`build(depth, width, dropout_rate, use_norm, activation, use_residual,
use_dense) -> module_with_known_output_width`; `build_model` recovers that
width through `get_out_size` or, as a fallback, the parameter count of the
last learnable layer.  We abstract the collaborator as a function `body_out`
from the recorded call to the reported output width.

`ModelBuilder.build_model`: compose head, body (built with `depth - 1`) and
tail, the tail's fan-in being the body's reported output width. -/
def build_model (mb : ModelBuilder) (body_out : BodyCall → ℕ) : Module :=
  let head := Module.dense (get_head mb)
  let call := get_body mb (Val.sub mb.depth (.num 1))
  let out_size := body_out call
  let tail := Module.dense (get_tail mb (.num out_size))
  .sequential [head, .body call out_size, tail]

/-- An optimiser built by `build_opt`: `optim.Adam` or `optim.SGD` over the
model's parameters, carrying the forwarded hyperparameter mapping. -/
inductive Optim where
  | Adam (opt_args : Dict)
  | SGD (opt_args : Dict)
deriving DecidableEq, Repr

/-- The hyperparameter mapping an optimiser was constructed with. -/
def Optim.hyper : Optim → Dict
  | .Adam a => a
  | .SGD a => a

/-- Source `ModelBuilder.build_opt`: dispatch on the stored optimiser kind; the
Python function falls through (returning `None`) on any other kind, which
`Option` makes explicit. -/
def build_opt (mb : ModelBuilder) : Option Optim :=
  if mb.opt = .str "adam" then some (.Adam mb.opt_args)
  else if mb.opt = .str "sgd" then some (.SGD mb.opt_args)
  else none

/-- Source `ModelBuilder.set_lr`: overwrite the `'lr'` entry of the stored
hyperparameter mapping (`self.opt_args['lr'] = lr`). -/
def set_lr (mb : ModelBuilder) (lr : ℚ) : ModelBuilder :=
  { mb with opt_args := dictSet mb.opt_args "lr" (.num lr) }

/-- Source `ModelBuilder.get_model`: build the model, then an optimiser over it, and
return them with the resolved loss. -/
def get_model (mb : ModelBuilder) (body_out : BodyCall → ℕ) :
    Module × Option Optim × LossVal :=
  let model := build_model mb body_out
  (model, build_opt mb, mb.loss)

/-- Whether an `Except` computation succeeded. -/
def isOk {ε α : Type} : Except ε α → Bool
  | .ok _ => true
  | .error _ => false

/-- The builder `construct "multiclass" 4 1 [] [] .auto` produces: a
multi-class objective with a single output, whose auto-resolved loss is
`nn.BCELoss` because `n_out > 1` fails. -/
def mbMulti1 : ModelBuilder :=
  { objective := "multiclass", n_in := 4, n_out := 1, loss := .BCELoss, width := .num 100,
    depth := .num 4, do_ := .num 0, bn := .bool false, act := .str "relu",
    res := .bool false, dense := .bool false, opt := .str "adam", opt_args := [] }

/-- The builder `construct "MultiClass" 4 5 [] [] .auto` produces. -/
def mbMulti5 : ModelBuilder :=
  { objective := "multiclass", n_in := 4, n_out := 5, loss := .NLLLoss, width := .num 100,
    depth := .num 4, do_ := .num 0, bn := .bool false, act := .str "relu",
    res := .bool false, dense := .bool false, opt := .str "adam", opt_args := [] }

/-- The builder `construct "reg" 1 1 [] [("LR", 1)] .auto` produces: note the
lower-cased hyperparameter key. -/
def mbLR : ModelBuilder :=
  { objective := "reg", n_in := 1, n_out := 1, loss := .MSELoss, width := .num 100,
    depth := .num 4, do_ := .num 0, bn := .bool false, act := .str "relu",
    res := .bool false, dense := .bool false, opt := .str "adam",
    opt_args := [("lr", .num 1)] }

/-- The builder produced with an explicit (non-auto) loss object on a
multi-class objective. -/
def mbCustom : ModelBuilder :=
  { objective := "multiclass", n_in := 4, n_out := 5, loss := .custom (.str "huber"),
    width := .num 100, depth := .num 4, do_ := .num 0, bn := .bool false,
    act := .str "relu", res := .bool false, dense := .bool false, opt := .str "adam",
    opt_args := [] }

/-- The builder `construct "regression" 7 1 [] [] .auto` produces: every
model_config key missing, all defaults. -/
def mbDefault : ModelBuilder :=
  { objective := "regression", n_in := 7, n_out := 1, loss := .MSELoss, width := .num 100,
    depth := .num 4, do_ := .num 0, bn := .bool false, act := .str "relu",
    res := .bool false, dense := .bool false, opt := .str "adam", opt_args := [] }

/-- A builder with a nonzero dropout rate, for exercising `get_dense`. -/
def mbDrop : ModelBuilder :=
  { objective := "class", n_in := 2, n_out := 1, loss := .BCELoss, width := .num 10,
    depth := .num 4, do_ := .num (1/2), bn := .bool false, act := .str "selu",
    res := .bool false, dense := .bool false, opt := .str "adam", opt_args := [] }

/-- A body builder reporting output width 100 for every call, standing in for
the external collaborator in concrete instances. -/
def constWidth : BodyCall → ℕ := fun _ => 100

/-- A lookup misses exactly when the key is absent. -/
theorem dictGet_not_contains {d : Dict} {k : String} (h : dictContains d k = false) :
    dictGet d k = none := by
  induction d with
  | nil => rfl
  | cons kv d ih =>
      simp [dictContains] at h
      have hd : dictContains d k = false := by
        simp [dictContains]
        exact h.2
      simp [dictGet, ih hd, h.1]

/-- Appending a binding at the end makes it win the lookup for its key and
leaves every other key alone. -/
theorem dictGet_append_last (d : Dict) (k' : String) (v' : Val) (k : String) :
    dictGet (d ++ [(k', v')]) k = if k' = k then some v' else dictGet d k := by
  induction d with
  | nil => simp [dictGet]
  | cons kv d ih =>
      have step : dictGet ((kv :: d) ++ [(k', v')]) k =
          match dictGet (d ++ [(k', v')]) k with
          | some v => some v
          | none => if kv.1 = k then some kv.2 else none := rfl
      rw [step, ih]
      by_cases h : k' = k
      · simp [h]
      · simp [h, dictGet]

/-- Filtering out one key preserves lookups of every other key. -/
theorem dictGet_filter_ne {k0 k : String} (hk : k ≠ k0) (d : Dict) :
    dictGet (d.filter (fun kv => kv.1 != k0)) k = dictGet d k := by
  induction d with
  | nil => rfl
  | cons kv d ih =>
      by_cases h : kv.1 = k0
      · have hk0 : ¬ k0 = k := fun hh => hk hh.symm
        simp only [List.filter_cons, h, bne_self_eq_false, Bool.false_eq_true, if_false, ih,
          dictGet]
        cases hd : dictGet d k <;> simp [hd, hk0]
      · simp [List.filter_cons, h, dictGet, ih]

/-- Overwriting the bindings of an absent key changes nothing visible at that
key. -/
theorem dictGet_map_replace_none {d : Dict} {k : String} (h : dictContains d k = false)
    (v : Val) :
    dictGet (d.map (fun kv => if kv.1 = k then (k, v) else kv)) k = none := by
  induction d with
  | nil => rfl
  | cons kv d ih =>
      simp [dictContains] at h
      have hd : dictContains d k = false := by
        simp [dictContains]
        exact h.2
      simp [dictGet, h.1, ih hd]

/-- Overwriting every binding of a present key makes the lookup return the
new value. -/
theorem dictGet_map_replace {d : Dict} {k : String} (h : dictContains d k = true)
    (v : Val) :
    dictGet (d.map (fun kv => if kv.1 = k then (k, v) else kv)) k = some v := by
  induction d with
  | nil => cases h
  | cons kv d ih =>
      by_cases hc : dictContains d k = true
      · simp [dictGet, ih hc]
      · have hc' : dictContains d k = false := by simpa using hc
        have hkv : kv.1 = k := by
          cases hb : (kv.1 == k) with
          | true => exact eq_of_beq hb
          | false =>
              exfalso
              have hfalse : dictContains (kv :: d) k = false := by
                simp only [dictContains, List.any_cons, hb, Bool.false_or]
                exact hc'
              rw [h] at hfalse
              cases hfalse
        simp [dictGet, dictGet_map_replace_none hc' v, hkv]

/-- Setting `d[k] = v` and then reading `d[k]` yields `v`. -/
theorem dictGet_dictSet (d : Dict) (k : String) (v : Val) :
    dictGet (dictSet d k v) k = some v := by
  unfold dictSet
  by_cases h : dictContains d k = true
  · simp [h, dictGet_map_replace h v]
  · have h' : dictContains d k = false := by simpa using h
    simp [h', dictGet_append_last]

/-- What a successful `parse_opt_args` returns: the resolved kind, known to
be `'adam'` or `'sgd'`, and the lower-cased bindings minus `opt`. -/
theorem parse_opt_args_ok {oa : Dict} {o : Val} {d : Dict}
    (h : parse_opt_args oa = .ok (o, d)) :
    o = optResolve oa ∧ (o = .str "adam" ∨ o = .str "sgd") ∧
      d = (lowerKeys oa).filter (fun kv => kv.1 != "opt") := by
  by_cases hc : optResolve oa = Val.str "adam" ∨ optResolve oa = Val.str "sgd"
  · simp [parse_opt_args, hc] at h
    refine ⟨h.1.symm, ?_, h.2.symm⟩
    rw [h.1] at hc
    exact hc
  · simp [parse_opt_args, hc] at h

/-- Lemma: `parse_opt_args` rejects any resolved kind other than `'adam'` or
`'sgd'`. -/
theorem parse_opt_args_err {oa : Dict} (h1 : optResolve oa ≠ .str "adam")
    (h2 : optResolve oa ≠ .str "sgd") :
    parse_opt_args oa = .error "Optimiser not currently available" := by
  unfold parse_opt_args
  rw [if_neg]
  rintro (hc | hc)
  · exact h1 hc
  · exact h2 hc

/-- Elimination for a successful construction: the builder's fields are
exactly what the three parsers produce, and the optimiser kind passed the
validation. -/
theorem construct_ok {objective : String} {n_in n_out : ℕ} {ma oa : Dict} {loss : LossArg}
    {mb : ModelBuilder} (h : construct objective n_in n_out ma oa loss = .ok mb) :
    mb = { objective := strLower objective, n_in := n_in, n_out := n_out,
           loss := parse_loss (strLower objective) n_out loss,
           width := (parse_model_args ma).width, depth := (parse_model_args ma).depth,
           do_ := (parse_model_args ma).do_, bn := (parse_model_args ma).bn,
           act := (parse_model_args ma).act, res := (parse_model_args ma).res,
           dense := (parse_model_args ma).dense,
           opt := optResolve oa,
           opt_args := (lowerKeys oa).filter (fun kv => kv.1 != "opt") } ∧
    (optResolve oa = .str "adam" ∨ optResolve oa = .str "sgd") := by
  unfold construct at h
  cases hpo : parse_opt_args oa with
  | error e => rw [hpo] at h; cases h
  | ok p =>
      obtain ⟨o, d⟩ := p
      rw [hpo] at h
      obtain ⟨ho, hoo, hd⟩ := parse_opt_args_ok hpo
      cases h
      subst ho hd
      exact ⟨rfl, hoo⟩

/-- Claim C2: for every opt_config whose resolved optimiser kind (key `opt`,
default `'adam'`) is outside the supported set, construction fails with the
`ValueError` message and produces no builder. -/
theorem C2_unsupported_optimiser (objective : String) (n_in n_out : ℕ) (ma oa : Dict)
    (loss : LossArg) (h1 : optResolve oa ≠ .str "adam") (h2 : optResolve oa ≠ .str "sgd") :
    construct objective n_in n_out ma oa loss =
      .error "Optimiser not currently available" := by
  unfold construct
  rw [parse_opt_args_err h1 h2]

/-- Claim C2 witness: the configuration `{'opt': 'rmsprop'}` is rejected. -/
theorem C2_unsupported_optimiser_witness :
    construct "reg" 1 1 [] [("opt", .str "rmsprop")] .auto =
      .error "Optimiser not currently available" :=
  C2_unsupported_optimiser "reg" 1 1 [] [("opt", .str "rmsprop")] .auto
    (by decide) (by decide)

/-- Claim C5: an explicit (non-`'auto'`) loss passed to the constructor is
stored exactly as supplied, whatever the objective string and `n_out`. -/
theorem C5_explicit_loss_wins (objective : String) (n_in n_out : ℕ) (ma oa : Dict)
    (l : LossVal) (mb : ModelBuilder)
    (h : construct objective n_in n_out ma oa (.explicitLoss l) = .ok mb) :
    mb.loss = l := by
  obtain ⟨hmb, -⟩ := construct_ok h
  subst hmb
  rfl

/-- Claim C5 witness: an explicit loss object survives a multi-class
objective with `n_out = 5` unchanged. -/
theorem C5_explicit_loss_wins_witness :
    mbCustom.loss = .custom (.str "huber") :=
  C5_explicit_loss_wins "multiclass" 4 5 [] [] (.custom (.str "huber")) mbCustom (by decide)

/-- Claim C9: every successfully constructed builder stores an optimiser kind
that is exactly `'adam'` or `'sgd'`, so `build_opt` takes one of its two
branches and returns an optimiser; the implicit `None` fall-through is
unreachable. -/
theorem C9_build_opt_total (objective : String) (n_in n_out : ℕ) (ma oa : Dict)
    (loss : LossArg) (mb : ModelBuilder)
    (h : construct objective n_in n_out ma oa loss = .ok mb) :
    (mb.opt = .str "adam" ∨ mb.opt = .str "sgd") ∧ (build_opt mb).isSome = true := by
  obtain ⟨hmb, hopt⟩ := construct_ok h
  subst hmb
  refine ⟨hopt, ?_⟩
  rcases hopt with ho | ho <;> simp [build_opt, ho]

/-- Claim C9 witness: the default construction yields a builder whose
optimiser build succeeds. -/
theorem C9_build_opt_total_witness :
    (mbDefault.opt = .str "adam" ∨ mbDefault.opt = .str "sgd") ∧
      (build_opt mbDefault).isSome = true :=
  C9_build_opt_total "regression" 7 1 [] [] .auto mbDefault (by decide)

/-- Claim C10: opt_config keys are matched case-insensitively but the
optimiser-kind value is matched case-sensitively: `{'OPT': 'adam'}` is
accepted, while `{'opt': s}` for any `s` other than exactly `'adam'` or
`'sgd'` — such as `'Adam'` — is rejected. -/
theorem C10_opt_value_case_sensitive (objective : String) (n_in n_out : ℕ) (ma : Dict)
    (loss : LossArg) (s : String) (h1 : s ≠ "adam") (h2 : s ≠ "sgd") :
    isOk (construct objective n_in n_out ma [("OPT", .str "adam")] loss) = true ∧
    construct objective n_in n_out ma [("opt", .str s)] loss =
      .error "Optimiser not currently available" := by
  constructor
  · have hok : parse_opt_args [("OPT", Val.str "adam")] = .ok (.str "adam", []) := by decide
    unfold construct
    rw [hok]
    rfl
  · have hlow : strLower "opt" = "opt" := by decide
    have hres : optResolve [("opt", Val.str s)] = .str s := by
      simp [optResolve, lowerKeys, dictGet, hlow]
    have e1 : optResolve [("opt", Val.str s)] ≠ Val.str "adam" := by
      rw [hres]
      intro hc
      injection hc with hc
      exact h1 hc
    have e2 : optResolve [("opt", Val.str s)] ≠ Val.str "sgd" := by
      rw [hres]
      intro hc
      injection hc with hc
      exact h2 hc
    unfold construct
    rw [parse_opt_args_err e1 e2]

/-- Claim C10 witness: `{'OPT': 'adam'}` constructs, `{'opt': 'Adam'}` is
rejected. -/
theorem C10_opt_value_case_sensitive_witness :
    isOk (construct "class" 2 1 [] [("OPT", .str "adam")] .auto) = true ∧
    construct "class" 2 1 [] [("opt", .str "Adam")] .auto =
      .error "Optimiser not currently available" :=
  C10_opt_value_case_sensitive "class" 2 1 [] .auto "Adam" (by decide) (by decide)

/-- Claim C6: `set_lr` overwrites the stored `'lr'` hyperparameter, so an
optimiser built afterwards carries exactly that learning rate, whatever value
the construction-time mapping held; optimisers already built are separate
values and are untouched by the mutation. -/
theorem C6_set_lr_controls_rate (mb : ModelBuilder) (lr : ℚ) (o : Optim)
    (h : build_opt (set_lr mb lr) = some o) :
    dictGet o.hyper "lr" = some (.num lr) := by
  by_cases ha : mb.opt = Val.str "adam"
  · simp [build_opt, set_lr, ha] at h
    subst h
    simp [Optim.hyper, dictGet_dictSet]
  · by_cases hs : mb.opt = Val.str "sgd"
    · simp [build_opt, set_lr, ha, hs] at h
      subst h
      simp [Optim.hyper, dictGet_dictSet]
    · simp [build_opt, set_lr, ha, hs] at h

/-- Claim C6 witness: `set_lr 0.01` then `build_opt` on a builder constructed
with `lr = 1` yields an optimiser with learning rate `0.01`. -/
theorem C6_set_lr_controls_rate_witness :
    dictGet (Optim.Adam [("lr", Val.num (1/100))]).hyper "lr" = some (.num (1/100)) :=
  C6_set_lr_controls_rate mbLR (1/100) (Optim.Adam [("lr", Val.num (1/100))]) rfl

/-- Claim C4 counterexample: with opt_config `{'LR': 1}` the stored
hyperparameter mapping binds `'lr'`, not the verbatim key `'LR'`: the key is
forwarded lower-cased, refuting forwarding of both key and value unchanged. -/
theorem C4_counterexample :
    construct "reg" 1 1 [] [("LR", Val.num 1)] .auto = .ok mbLR ∧
    mbLR.opt_args = [("lr", Val.num 1)] ∧
    mbLR.opt_args ≠ [("LR", Val.num 1)] ∧
    dictGet mbLR.opt_args "LR" = none :=
  ⟨by decide, by decide, by decide, by decide⟩

/-- Claim C4 (amended): every opt_config entry other than the optimiser-kind
key `opt` is forwarded to optimiser construction with its key lower-cased and
its value unchanged. -/
theorem C4_opt_args_forwarded (objective : String) (n_in n_out : ℕ) (ma oa : Dict)
    (loss : LossArg) (mb : ModelBuilder) (o : Optim) (k : String) (v : Val)
    (h : construct objective n_in n_out ma oa loss = .ok mb)
    (ho : build_opt mb = some o) (hk : k ≠ "opt")
    (hv : dictGet (lowerKeys oa) k = some v) :
    dictGet o.hyper k = some v := by
  obtain ⟨hmb, hopt⟩ := construct_ok h
  subst hmb
  have hargs : o.hyper = (lowerKeys oa).filter (fun kv => kv.1 != "opt") := by
    rcases hopt with hoo | hoo
    · simp [build_opt, hoo] at ho
      subst ho
      rfl
    · simp [build_opt, hoo] at ho
      subst ho
      rfl
  rw [hargs, dictGet_filter_ne hk, hv]

/-- Claim C4 witness: the value passed under key `'LR'` is retrievable,
unchanged, under `'lr'` in the built optimiser. -/
theorem C4_opt_args_forwarded_witness :
    dictGet (Optim.Adam [("lr", Val.num 1)]).hyper "lr" = some (.num 1) :=
  C4_opt_args_forwarded "reg" 1 1 [] [("LR", .num 1)] .auto mbLR
    (Optim.Adam [("lr", .num 1)]) "lr" (.num 1) (by decide) (by decide)
    (by decide) (by decide)

/-- Claim C7: a dense block built with activation `'selu'`, not an output
layer and a nonzero dropout rate contains `nn.AlphaDropout` and no standard
`nn.Dropout`; with any other activation under the same conditions it contains
the standard `nn.Dropout` and no `nn.AlphaDropout`. -/
theorem C7_selu_dropout_variant (mb : ModelBuilder) (fi fo : Option Val) (p : ℚ) (a : Val)
    (hdo : mb.do_ = .num p) (hp : p ≠ 0) (ha : a ≠ .str "selu") :
    ((get_dense mb fi fo (some (.str "selu")) false).getLast? =
        some (.AlphaDropout mb.do_) ∧
      ∀ q : Val, Layer.Dropout q ∉ get_dense mb fi fo (some (.str "selu")) false) ∧
    ((get_dense mb fi fo (some a) false).getLast? = some (.Dropout mb.do_) ∧
      ∀ q : Val, Layer.AlphaDropout q ∉ get_dense mb fi fo (some a) false) := by
  have ht : mb.do_.truthy = true := by
    rw [hdo]
    simp [Val.truthy, hp]
  unfold get_dense
  by_cases hb : mb.bn.truthy = true
  · by_cases hl : a = Val.str "linear" <;>
      simp [ht, hb, hl, ha]
  · by_cases hl : a = Val.str "linear" <;>
      simp [ht, hb, hl, ha]

/-- Claim C7 witness: a selu block with dropout rate 1/2 ends in
`nn.AlphaDropout`, and the same block with `'relu'` ends in `nn.Dropout`. -/
theorem C7_selu_dropout_variant_witness :
    (get_dense mbDrop none none (some (.str "selu")) false).getLast? =
      some (.AlphaDropout mbDrop.do_) ∧
    (get_dense mbDrop none none (some (.str "relu")) false).getLast? =
      some (.Dropout mbDrop.do_) :=
  ⟨(C7_selu_dropout_variant mbDrop none none (1/2) (.str "relu") rfl
      (by norm_num) (by decide)).1.1,
   (C7_selu_dropout_variant mbDrop none none (1/2) (.str "relu") rfl
      (by norm_num) (by decide)).2.1⟩

/-- Claim C8: model_config keys are matched case-insensitively (the parse
depends only on the lower-cased mapping), an unrecognised key is ignored
silently, missing keys fall back to their documented defaults, and
construction success never depends on the model_config at all. -/
theorem C8_model_args_lenient (objective : String) (n_in n_out : ℕ) (ma ma2 oa : Dict)
    (loss : LossArg) (k : String) (v : Val)
    (hk : strLower k ∉ (["width", "depth", "do", "bn", "act", "res", "dense"] : List String)) :
    (lowerKeys ma = lowerKeys ma2 → parse_model_args ma = parse_model_args ma2) ∧
    parse_model_args (ma ++ [(k, v)]) = parse_model_args ma ∧
    isOk (construct objective n_in n_out ma oa loss) =
      isOk (construct objective n_in n_out [] oa loss) ∧
    (dictContains (lowerKeys ma) "width" = false → (parse_model_args ma).width = .num 100) ∧
    (dictContains (lowerKeys ma) "depth" = false → (parse_model_args ma).depth = .num 4) ∧
    (dictContains (lowerKeys ma) "do" = false → (parse_model_args ma).do_ = .num 0) ∧
    (dictContains (lowerKeys ma) "bn" = false → (parse_model_args ma).bn = .bool false) ∧
    (dictContains (lowerKeys ma) "act" = false → (parse_model_args ma).act = .str "relu") ∧
    (dictContains (lowerKeys ma) "res" = false → (parse_model_args ma).res = .bool false) ∧
    (dictContains (lowerKeys ma) "dense" = false → (parse_model_args ma).dense = .bool false) := by
  refine ⟨?_, ?_, ?_, ?_, ?_, ?_, ?_, ?_, ?_, ?_⟩
  · intro hmm
    unfold parse_model_args
    rw [hmm]
  · have h1 : ¬ strLower k = "width" := fun hh => hk (by rw [hh]; simp)
    have h2 : ¬ strLower k = "depth" := fun hh => hk (by rw [hh]; simp)
    have h3 : ¬ strLower k = "do" := fun hh => hk (by rw [hh]; simp)
    have h4 : ¬ strLower k = "bn" := fun hh => hk (by rw [hh]; simp)
    have h5 : ¬ strLower k = "act" := fun hh => hk (by rw [hh]; simp)
    have h6 : ¬ strLower k = "res" := fun hh => hk (by rw [hh]; simp)
    have h7 : ¬ strLower k = "dense" := fun hh => hk (by rw [hh]; simp)
    have hl : lowerKeys (ma ++ [(k, v)]) = lowerKeys ma ++ [(strLower k, v)] := by
      simp [lowerKeys]
    unfold parse_model_args
    rw [hl]
    simp [dictGet_append_last, h1, h2, h3, h4, h5, h6, h7]
  · unfold construct
    cases parse_opt_args oa with
    | error e => rfl
    | ok p =>
        obtain ⟨o, d⟩ := p
        rfl
  · intro hc
    simp [parse_model_args, dictGet_not_contains hc]
  · intro hc
    simp [parse_model_args, dictGet_not_contains hc]
  · intro hc
    simp [parse_model_args, dictGet_not_contains hc]
  · intro hc
    simp [parse_model_args, dictGet_not_contains hc]
  · intro hc
    simp [parse_model_args, dictGet_not_contains hc]
  · intro hc
    simp [parse_model_args, dictGet_not_contains hc]
  · intro hc
    simp [parse_model_args, dictGet_not_contains hc]

/-- Claim C8 witness: `{'Width': 50}` parses like `{'width': 50}`, the
unknown key `'FOO'` is ignored, every missing recognised key defaults, and
success is independent of the model_config. -/
theorem C8_model_args_lenient_witness :
    (lowerKeys [("Width", Val.num 50)] = lowerKeys [("width", Val.num 50)] →
      parse_model_args [("Width", Val.num 50)] = parse_model_args [("width", Val.num 50)]) ∧
    parse_model_args ([("Width", Val.num 50)] ++ [("FOO", Val.num 9)]) =
      parse_model_args [("Width", Val.num 50)] ∧
    isOk (construct "class" 2 1 [("Width", Val.num 50)] [] .auto) =
      isOk (construct "class" 2 1 [] [] .auto) ∧
    (dictContains (lowerKeys [("Width", Val.num 50)]) "width" = false →
      (parse_model_args [("Width", Val.num 50)]).width = .num 100) ∧
    (dictContains (lowerKeys [("Width", Val.num 50)]) "depth" = false →
      (parse_model_args [("Width", Val.num 50)]).depth = .num 4) ∧
    (dictContains (lowerKeys [("Width", Val.num 50)]) "do" = false →
      (parse_model_args [("Width", Val.num 50)]).do_ = .num 0) ∧
    (dictContains (lowerKeys [("Width", Val.num 50)]) "bn" = false →
      (parse_model_args [("Width", Val.num 50)]).bn = .bool false) ∧
    (dictContains (lowerKeys [("Width", Val.num 50)]) "act" = false →
      (parse_model_args [("Width", Val.num 50)]).act = .str "relu") ∧
    (dictContains (lowerKeys [("Width", Val.num 50)]) "res" = false →
      (parse_model_args [("Width", Val.num 50)]).res = .bool false) ∧
    (dictContains (lowerKeys [("Width", Val.num 50)]) "dense" = false →
      (parse_model_args [("Width", Val.num 50)]).dense = .bool false) :=
  C8_model_args_lenient "class" 2 1 [("Width", Val.num 50)] [("width", Val.num 50)] []
    .auto "FOO" (.num 9) (by decide)

/-- Claim C3: when the model_config omits every recognised key, construction
resolves width 100, depth 4, dropout 0, no batch-norm, activation `'relu'`,
and `build_model` assembles the network from those defaults: a 100-wide relu
head over `n_in`, and a body built with depth 3 (`depth - 1`), width 100, no
dropout, no norm, relu, no residual or dense connectivity. -/
theorem C3_default_network (objective : String) (n_in n_out : ℕ) (ma oa : Dict)
    (loss : LossArg) (mb : ModelBuilder) (body_out : BodyCall → ℕ)
    (hma : ∀ r ∈ (["width", "depth", "do", "bn", "act", "res", "dense"] : List String),
      dictContains (lowerKeys ma) r = false)
    (h : construct objective n_in n_out ma oa loss = .ok mb) :
    mb.width = .num 100 ∧ mb.depth = .num 4 ∧ mb.do_ = .num 0 ∧ mb.bn = .bool false ∧
    mb.act = .str "relu" ∧
    build_model mb body_out =
      .sequential
        [ .dense [.Linear (.num n_in) (.num 100), .Activation (.str "relu")],
          .body { depth := .num 3, width := .num 100, do_ := .num 0, bn := .bool false,
                  act := .str "relu", res := .bool false, dense := .bool false }
            (body_out { depth := .num 3, width := .num 100, do_ := .num 0,
                        bn := .bool false, act := .str "relu", res := .bool false,
                        dense := .bool false }),
          .dense (get_tail mb
            (.num (body_out { depth := .num 3, width := .num 100, do_ := .num 0,
                              bn := .bool false, act := .str "relu", res := .bool false,
                              dense := .bool false }))) ] := by
  obtain ⟨hmb, -⟩ := construct_ok h
  have hw : (parse_model_args ma).width = Val.num 100 := by
    simp [parse_model_args, dictGet_not_contains (hma "width" (by simp))]
  have hd : (parse_model_args ma).depth = Val.num 4 := by
    simp [parse_model_args, dictGet_not_contains (hma "depth" (by simp))]
  have hdo : (parse_model_args ma).do_ = Val.num 0 := by
    simp [parse_model_args, dictGet_not_contains (hma "do" (by simp))]
  have hb : (parse_model_args ma).bn = Val.bool false := by
    simp [parse_model_args, dictGet_not_contains (hma "bn" (by simp))]
  have hac : (parse_model_args ma).act = Val.str "relu" := by
    simp [parse_model_args, dictGet_not_contains (hma "act" (by simp))]
  have hr : (parse_model_args ma).res = Val.bool false := by
    simp [parse_model_args, dictGet_not_contains (hma "res" (by simp))]
  have hde : (parse_model_args ma).dense = Val.bool false := by
    simp [parse_model_args, dictGet_not_contains (hma "dense" (by simp))]
  subst hmb
  refine ⟨hw, hd, hdo, hb, hac, ?_⟩
  unfold build_model get_head get_body get_dense
  simp [hw, hd, hdo, hb, hac, hr, hde, Val.sub, Val.truthy]
  norm_num

/-- Claim C3 witness: the default construction over 7 inputs yields exactly
the default network. -/
theorem C3_default_network_witness :
    mbDefault.width = .num 100 ∧ mbDefault.depth = .num 4 ∧ mbDefault.do_ = .num 0 ∧
    mbDefault.bn = .bool false ∧ mbDefault.act = .str "relu" ∧
    build_model mbDefault constWidth =
      .sequential
        [ .dense [.Linear (.num 7) (.num 100), .Activation (.str "relu")],
          .body { depth := .num 3, width := .num 100, do_ := .num 0, bn := .bool false,
                  act := .str "relu", res := .bool false, dense := .bool false }
            (constWidth { depth := .num 3, width := .num 100, do_ := .num 0,
                          bn := .bool false, act := .str "relu", res := .bool false,
                          dense := .bool false }),
          .dense (get_tail mbDefault
            (.num (constWidth { depth := .num 3, width := .num 100, do_ := .num 0,
                                bn := .bool false, act := .str "relu", res := .bool false,
                                dense := .bool false }))) ] :=
  C3_default_network "regression" 7 1 [] [] .auto mbDefault constWidth (by decide) (by decide)

/-- Claim C1 counterexample: for objective `"multiclass"` with `n_out = 1`
(containing `'class'` and `'multi'` but failing `n_out > 1`) the claim
requires a sigmoid-terminated tail, but `get_tail` never consults `n_out` and
ends the tail in log-softmax; only the loss falls back to `nn.BCELoss`. -/
theorem C1_counterexample :
    construct "multiclass" 4 1 [] [] .auto = .ok mbMulti1 ∧
    (get_tail mbMulti1 (.num 100)).getLast? = some (.Activation (.str "logsoftmax")) ∧
    (get_tail mbMulti1 (.num 100)).getLast? ≠ some (.Activation (.str "sigmoid")) ∧
    mbMulti1.loss = .BCELoss :=
  ⟨by decide, by decide, by decide, by decide⟩

/-- Claim C1 (amended): with loss left as `'auto'`, the tail activation
depends only on substring containment in the lower-cased objective —
log-softmax whenever it contains both `'class'` and `'multi'` (regardless of
`n_out`), sigmoid for `'class'` without `'multi'`, and a bare linear layer
otherwise — while the resolved loss is negative log-likelihood only when the
objective is multi-class and `n_out > 1`, binary cross-entropy for every
other `'class'` objective (including multi-class with `n_out = 1`), and mean
squared error for non-classification objectives. -/
theorem C1_tail_and_loss (objective : String) (n_in n_out : ℕ) (ma oa : Dict)
    (mb : ModelBuilder) (t : Val)
    (h : construct objective n_in n_out ma oa .auto = .ok mb) :
    (strContains (strLower objective) "class" = true →
      (strContains (strLower objective) "multi" = true →
        (get_tail mb t).getLast? = some (.Activation (.str "logsoftmax")) ∧
        mb.loss = if 1 < n_out then LossVal.NLLLoss else LossVal.BCELoss) ∧
      (strContains (strLower objective) "multi" = false →
        (get_tail mb t).getLast? = some (.Activation (.str "sigmoid")) ∧
        mb.loss = .BCELoss)) ∧
    (strContains (strLower objective) "class" = false →
      get_tail mb t = [.Linear t (.num n_out)] ∧ mb.loss = .MSELoss) := by
  obtain ⟨hmb, -⟩ := construct_ok h
  subst hmb
  refine ⟨fun hcl => ⟨fun hm => ?_, fun hm => ?_⟩, fun hcl => ?_⟩
  · constructor
    · simp [get_tail, get_dense, hcl, hm]
    · simp [parse_loss, hcl, hm]
  · constructor
    · simp [get_tail, get_dense, hcl, hm]
    · simp [parse_loss, hcl, hm]
  · constructor
    · simp [get_tail, get_dense, hcl]
    · simp [parse_loss, hcl]

/-- Claim C1 witness: objective `"MultiClass"` with `n_out = 5` gets a
log-softmax-terminated tail and the negative-log-likelihood loss. -/
theorem C1_tail_and_loss_witness :
    (get_tail mbMulti5 (.num 100)).getLast? = some (.Activation (.str "logsoftmax")) ∧
    mbMulti5.loss = if 1 < 5 then LossVal.NLLLoss else LossVal.BCELoss :=
  ((C1_tail_and_loss "MultiClass" 4 5 [] [] mbMulti5 (.num 100) (by decide)).1
      (by decide)).1 (by decide)

end Lumin
